import Mathlib

/-!
Shallow embedding (in Lean 4, over exact rationals) of the core decision
pipeline of the smc-trading-bot repository, together with theorems that
settle the frozen claims C1..C10 about it.

Conventions of the embedding:
* Python/pandas floats are modelled as exact rationals (`ℚ`).  Where pandas
  produces NaN (rolling windows during warm-up, division of a NaN), the value
  is modelled as `Option ℚ` with `none` standing for NaN; the Python/numpy
  comparison semantics "any comparison with NaN is False" and the semantics
  of the builtin `min`/`max` on such values are reproduced by the `flt`,
  `pymin` helpers below.  Division of a (non-NaN) float by zero is modelled
  as `none` as well; at every program point relevant to a claim this either
  coincides with the numpy `inf`/`nan` behaviour through the subsequent
  `min` cap, or is unreachable (noted locally).
* Python's builtin `round` (banker's rounding, round-half-to-even) is
  modelled exactly by `pyRound` / `pyRoundTo2`.
* Price history (`pd.DataFrame` with columns o,h,l,c,v) is a chronological
  `List Bar`.  `iloc[-1]`/`iloc[-2]`, `tail(n)`, `rolling(n).mean()` and
  friends are modelled by the list helpers below, reproducing the pandas
  NaN warm-up behaviour where it matters.
-/

namespace SMC

/-- Python `round`: round half to even, as an integer. -/
def pyRound (q : ℚ) : ℤ :=
  if q - ⌊q⌋ < 1/2 then ⌊q⌋
  else if 1/2 < q - ⌊q⌋ then ⌊q⌋ + 1
  else if ⌊q⌋ % 2 = 0 then ⌊q⌋ else ⌊q⌋ + 1

/-- Python `round(x, 2)`: round half to even at two decimal places. -/
def pyRoundTo2 (q : ℚ) : ℚ := (pyRound (q * 100) : ℚ) / 100

theorem pyRound_ge_floor (q : ℚ) : ⌊q⌋ ≤ pyRound q := by
  unfold pyRound
  split_ifs <;> omega

theorem pyRound_cases (q : ℚ) : pyRound q = ⌊q⌋ ∨ pyRound q = ⌊q⌋ + 1 := by
  unfold pyRound
  split_ifs <;> omega

theorem le_pyRound (n : ℤ) (q : ℚ) (h : (n : ℚ) ≤ q) : n ≤ pyRound q := by
  have h1 : n ≤ ⌊q⌋ := Int.le_floor.mpr h
  have h2 := pyRound_ge_floor q
  omega

theorem pyRound_le (n : ℤ) (q : ℚ) (h : q ≤ (n : ℚ)) : pyRound q ≤ n := by
  have hf : ⌊q⌋ ≤ n := by
    have := Int.floor_le_floor h
    simpa using this
  unfold pyRound
  split_ifs with h1 h2 h3
  · exact hf
  · -- the fractional part exceeds 1/2, so q is at least ⌊q⌋ + 1/2
    by_contra hc
    push_neg at hc
    have hn : n = ⌊q⌋ := by omega
    have hq : q - (⌊q⌋ : ℚ) > 1/2 := h2
    have : q > (n : ℚ) := by
      rw [hn]
      have := Int.floor_le q
      linarith
    linarith
  · exact hf
  · -- exact tie: q = ⌊q⌋ + 1/2, so ⌊q⌋ + 1 ≤ n would need q + 1/2 ≤ n
    by_contra hc
    push_neg at hc
    have hn : n = ⌊q⌋ := by omega
    have hq : q - (⌊q⌋ : ℚ) = 1/2 := by
      have := not_lt.mp h1
      have := not_lt.mp h2
      linarith
    have : q = (n : ℚ) + 1/2 := by
      rw [hn]; linarith
    rw [this] at h
    norm_num at h

/-- "Float or NaN": `none` models IEEE NaN flowing out of pandas. -/
abbrev F := Option ℚ

def fadd : F → F → F
  | some a, some b => some (a + b)
  | _, _ => none

def fsub : F → F → F
  | some a, some b => some (a - b)
  | _, _ => none

def fmul : F → F → F
  | some a, some b => some (a * b)
  | _, _ => none

/-- Float division; division by zero is modelled as NaN (`none`). -/
def fdiv : F → F → F
  | some a, some b => if b = 0 then none else some (a / b)
  | _, _ => none

/-- Python `<` on floats: any comparison involving NaN is False. -/
def flt : F → F → Bool
  | some a, some b => decide (a < b)
  | _, _ => false

/-- Python `<=` on floats: any comparison involving NaN is False. -/
def fle : F → F → Bool
  | some a, some b => decide (a ≤ b)
  | _, _ => false

/-- Python builtin `min(a, b)`: returns `b` iff `b < a` (so `min(x, nan) = x`). -/
def pymin (a b : F) : F := if flt b a then b else a

/-- Python builtin `max(a, b)`: returns `b` iff `a < b` (so `max(x, nan) = x`). -/
def pymax (a b : F) : F := if flt a b then b else a

/-- One OHLCV bar (`o`pen, `h`igh, `l`ow, `c`lose, `v`olume). -/
structure Bar where
  o : ℚ
  h : ℚ
  l : ℚ
  c : ℚ
  v : ℚ
deriving DecidableEq, Repr, Inhabited

/-- A chronologically ascending price window (a pandas DataFrame snapshot). -/
abbrev Series := List Bar

def opens (df : Series) : List ℚ := df.map (·.o)
def highs (df : Series) : List ℚ := df.map (·.h)
def lows (df : Series) : List ℚ := df.map (·.l)
def closes (df : Series) : List ℚ := df.map (·.c)
def vols (df : Series) : List ℚ := df.map (·.v)

/-- `xs.tail(n)` of pandas: the last `n` entries (all of them when `n ≥ len`). -/
def takeLast (n : ℕ) (xs : List ℚ) : List ℚ := xs.drop (xs.length - n)

/-- `.max()` of a pandas Series (guards in the source keep it nonempty). -/
def maxD : List ℚ → ℚ
  | [] => 0
  | x :: t => t.foldl max x

/-- `.min()` of a pandas Series (guards in the source keep it nonempty). -/
def minD : List ℚ → ℚ
  | [] => 0
  | x :: t => t.foldl min x

/-- `xs.iloc[i]` for an in-range positional index. -/
def getQ (xs : List ℚ) (i : ℕ) : ℚ := xs.getD i 0

/-- `xs.iloc[-1]` (guards in the source keep the series nonempty). -/
def lastQ (xs : List ℚ) : ℚ := xs.getLast?.getD 0

/-- `df.iloc[-1]` (guards in the source keep the series nonempty). -/
def lastBar (df : Series) : Bar := df.getLast?.getD default

def sumQ (xs : List ℚ) : ℚ := xs.foldr (· + ·) 0

/-- `xs.rolling(w).mean().iloc[i]`: NaN (`none`) during the warm-up. -/
def rollingMeanAt (xs : List ℚ) (w : ℕ) (i : ℕ) : F :=
  if i + 1 < w then none
  else some (sumQ (((xs.take (i + 1)).drop (i + 1 - w))) / w)

/-- `xs.rolling(w).mean().iloc[-1]`. -/
def rollingMeanLast (xs : List ℚ) (w : ℕ) : F :=
  rollingMeanAt xs w (xs.length - 1)

/-- The true-range series: `max(h-l, |h-prev_c|, |l-prev_c|)`, first entry
`h-l` (the pandas row-wise `max` skips the NaN of the shifted close). -/
def trGo (prev : Bar) : Series → List ℚ
  | [] => []
  | b :: t => max (b.h - b.l) (max |b.h - prev.c| |b.l - prev.c|) :: trGo b t

def trList : Series → List ℚ
  | [] => []
  | b :: t => (b.h - b.l) :: trGo b t

/-- `InstitutionalDetector.atr(df, period).iloc[i]`. -/
def atrAt (df : Series) (period : ℕ) (i : ℕ) : F :=
  rollingMeanAt (trList df) period i

/-- `InstitutionalDetector.atr(df).iloc[-1]` with the default period 14. -/
def atrLast (df : Series) : F := atrAt df 14 (df.length - 1)

end SMC

namespace SMC

/-- Signal side (`'BUY'` / `'SELL'` in the source). -/
inductive Side where
  | BUY
  | SELL
deriving DecidableEq, Repr

/-- Outcome hit types (`'SL'`, `'TP1'`, `'TP2'`, `'TP3'` in the source). -/
inductive HitType where
  | SL
  | TP1
  | TP2
  | TP3
deriving DecidableEq, Repr

/-- Structure-break / candle direction (`'bullish'`, `'bearish'`, `'none'`). -/
inductive Direction where
  | bullish
  | bearish
  | none
deriving DecidableEq, Repr

/-- Timeframe tag of an order block (`'H4'` / `'H1'`). -/
inductive TF where
  | H4
  | H1
deriving DecidableEq, Repr

end SMC

namespace SMC.Regime

/-- Volatility regime tags of `MarketRegimeDetector._detect_volatility_regime`. -/
inductive VolRegime where
  | HIGH_VOLATILITY
  | ELEVATED_VOLATILITY
  | LOW_VOLATILITY
  | EXTREME_LOW_VOLATILITY
  | NORMAL_VOLATILITY
deriving DecidableEq, Repr

structure VolResult where
  type : VolRegime
  ratio : ℚ
  confidence : ℚ
deriving DecidableEq, Repr

/-- `current_atr / avg_atr if avg_atr > 0 else 1` of
`MarketRegimeDetector._detect_volatility_regime`. -/
def volatility_ratio (current_atr avg_atr : ℚ) : ℚ :=
  if 0 < avg_atr then current_atr / avg_atr else 1

/-- `MarketRegimeDetector._detect_volatility_regime`, as a function of the
current ATR(14) and the trailing-50-bar mean ATR it reads off the series
(`atr.iloc[-1]` and `atr.tail(50).mean()`).  The branch chain is verbatim
from the source, in source order. -/
def detect_volatility_regime (current_atr avg_atr : ℚ) : VolResult :=
  if volatility_ratio current_atr avg_atr ≥ 18/10 then
    ⟨.HIGH_VOLATILITY, volatility_ratio current_atr avg_atr, 9/10⟩
  else if volatility_ratio current_atr avg_atr ≥ 13/10 then
    ⟨.ELEVATED_VOLATILITY, volatility_ratio current_atr avg_atr, 7/10⟩
  else if volatility_ratio current_atr avg_atr ≤ 7/10 then
    ⟨.LOW_VOLATILITY, volatility_ratio current_atr avg_atr, 8/10⟩
  else if volatility_ratio current_atr avg_atr ≤ 5/10 then
    ⟨.EXTREME_LOW_VOLATILITY, volatility_ratio current_atr avg_atr, 9/10⟩
  else
    ⟨.NORMAL_VOLATILITY, volatility_ratio current_atr avg_atr, 6/10⟩

/-- C5: the claim fails on the code.  A series whose ATR ratio is exactly
0.5 (current ATR 1, trailing mean ATR 2) is classified LOW_VOLATILITY with
confidence 0.8, not EXTREME_LOW_VOLATILITY with confidence 0.9: the
`ratio <= 0.7` branch precedes the `ratio <= 0.5` branch in the source, so
the EXTREME_LOW_VOLATILITY branch is unreachable for every input. -/
theorem volatility_extreme_low_unreachable :
    detect_volatility_regime 1 2 = ⟨.LOW_VOLATILITY, 1/2, 8/10⟩ ∧
    ∀ current_atr avg_atr : ℚ,
      (detect_volatility_regime current_atr avg_atr).type ≠
        VolRegime.EXTREME_LOW_VOLATILITY := by
  refine ⟨by norm_num [detect_volatility_regime, volatility_ratio], ?_⟩
  intro c a
  unfold detect_volatility_regime
  split_ifs with h1 h2 h3 h4 <;> simp_all
  linarith

end SMC.Regime

namespace SMC.Engine

open SMC

/-- Terminal states of `EliteSignalEngine._handle_elite_signal` (each early
`return` in the source is one rejection reason; reaching the sizing /
persist / notify block is `accepted`). -/
inductive HOutcome where
  | duplicate
  | news_muted
  | corr_rejected
  | flow_rejected
  | accepted
deriving DecidableEq, Repr

/-- The data `_handle_elite_signal` branches on: the dedup check, the news
guard, the gate results attached to the signal, and the trading config
flags.  The session fields are carried (the source computes and stores a
session recommendation) but — as in the source — never decide the outcome. -/
structure HandleInputs where
  is_duplicate : Bool
  news_guard_enabled : Bool
  in_blackout : Bool
  correlation_checks : Bool
  corr_aligned : Bool
  corr_score : ℚ
  flow_aligned : Bool
  flow_score : ℚ
  session_aware : Bool
  session_optimal : Bool
  session_score : ℚ

/-- `EliteSignalEngine._handle_elite_signal`, reduced to its accept/reject
state machine (the side effects — persisting, sizing, notification — are
modelled separately). -/
def handle_elite_signal (i : HandleInputs) : HOutcome :=
  if i.is_duplicate = true then .duplicate
  else if i.news_guard_enabled = true ∧ i.in_blackout = true then .news_muted
  else if i.correlation_checks = true ∧ (i.corr_aligned = false ∧ i.corr_score < 2/5) then
    .corr_rejected
  else if i.flow_aligned = false ∧ i.flow_score < 2/5 then .flow_rejected
  else .accepted

/-- C3: the Correlation and Flow gates each reject exactly when that gate
reports `aligned = false` with alignment score strictly below 0.4 (and the
pipeline reached them); the session recommendation never changes the
outcome. -/
theorem handle_gate_veto_policy (i : HandleInputs) :
    (handle_elite_signal i = .corr_rejected ↔
      i.is_duplicate = false ∧ ¬(i.news_guard_enabled = true ∧ i.in_blackout = true) ∧
        i.correlation_checks = true ∧ i.corr_aligned = false ∧ i.corr_score < 2/5) ∧
    (handle_elite_signal i = .flow_rejected ↔
      i.is_duplicate = false ∧ ¬(i.news_guard_enabled = true ∧ i.in_blackout = true) ∧
        ¬(i.correlation_checks = true ∧ i.corr_aligned = false ∧ i.corr_score < 2/5) ∧
        i.flow_aligned = false ∧ i.flow_score < 2/5) ∧
    (∀ a₁ o₁ s₁ a₂ o₂ s₂,
      handle_elite_signal
          { i with session_aware := a₁, session_optimal := o₁, session_score := s₁ } =
        handle_elite_signal
          { i with session_aware := a₂, session_optimal := o₂, session_score := s₂ }) := by
  unfold handle_elite_signal
  refine ⟨?_, ?_, fun a₁ o₁ s₁ a₂ o₂ s₂ => rfl⟩ <;>
    split_ifs with h1 h2 h3 h4 <;> simp_all

/-- `EliteSignalEngine._evaluate_elite_outcome`: the outcomes recorded for
one stored signal against the latest bar's high/low/close.  `recorded i`
models `store.is_tp_recorded(signal_id, i)`. -/
def evaluate_elite_outcome (side : Side) (sl tp1 tp2 tp3 : ℚ)
    (high low close : ℚ) (recorded : ℕ → Bool) : List (HitType × ℚ) :=
  if (side = .BUY ∧ low ≤ sl ∧ close ≤ sl) ∨ (side ≠ .BUY ∧ high ≥ sl ∧ close ≥ sl) then
    [(.SL, sl)]
  else
    (if ((side = .BUY ∧ high ≥ tp1) ∨ (side ≠ .BUY ∧ low ≤ tp1)) ∧ recorded 1 = false then
      [(.TP1, tp1)] else []) ++
    (if ((side = .BUY ∧ high ≥ tp2) ∨ (side ≠ .BUY ∧ low ≤ tp2)) ∧ recorded 2 = false then
      [(.TP2, tp2)] else []) ++
    (if ((side = .BUY ∧ high ≥ tp3) ∨ (side ≠ .BUY ∧ low ≤ tp3)) ∧ recorded 3 = false then
      [(.TP3, tp3)] else [])

/-- C4: the stop-loss outcome is recorded iff the bar's extreme reaches the
SL level AND the close confirms beyond it, while each take-profit outcome is
recorded on a mere intrabar touch (no close condition), provided the
stop-loss did not fire and the level was not already recorded. -/
theorem evaluate_outcome_sl_tp_asymmetry (side : Side) (sl tp1 tp2 tp3 : ℚ)
    (high low close : ℚ) (recorded : ℕ → Bool) :
    ((HitType.SL, sl) ∈ evaluate_elite_outcome side sl tp1 tp2 tp3 high low close recorded ↔
      (side = .BUY ∧ low ≤ sl ∧ close ≤ sl) ∨ (side = .SELL ∧ sl ≤ high ∧ sl ≤ close)) ∧
    ((HitType.TP1, tp1) ∈ evaluate_elite_outcome side sl tp1 tp2 tp3 high low close recorded ↔
      ¬((side = .BUY ∧ low ≤ sl ∧ close ≤ sl) ∨ (side = .SELL ∧ sl ≤ high ∧ sl ≤ close)) ∧
        ((side = .BUY ∧ tp1 ≤ high) ∨ (side = .SELL ∧ low ≤ tp1)) ∧ recorded 1 = false) ∧
    ((HitType.TP2, tp2) ∈ evaluate_elite_outcome side sl tp1 tp2 tp3 high low close recorded ↔
      ¬((side = .BUY ∧ low ≤ sl ∧ close ≤ sl) ∨ (side = .SELL ∧ sl ≤ high ∧ sl ≤ close)) ∧
        ((side = .BUY ∧ tp2 ≤ high) ∨ (side = .SELL ∧ low ≤ tp2)) ∧ recorded 2 = false) ∧
    ((HitType.TP3, tp3) ∈ evaluate_elite_outcome side sl tp1 tp2 tp3 high low close recorded ↔
      ¬((side = .BUY ∧ low ≤ sl ∧ close ≤ sl) ∨ (side = .SELL ∧ sl ≤ high ∧ sl ≤ close)) ∧
        ((side = .BUY ∧ tp3 ≤ high) ∨ (side = .SELL ∧ low ≤ tp3)) ∧ recorded 3 = false) := by
  cases side <;>
    (unfold evaluate_elite_outcome; split_ifs <;> simp_all [List.mem_append])

/-- The quantities `_apply_adaptive_sizing` reads from the signal and the
regime info.  `none` models a key that is absent from the corresponding
dict, resolved by the source's `.get(key, default)` calls. -/
structure SizingInputs where
  base_risk : ℚ
  position_size_multiplier : Option ℚ
  score : ℤ
  correlation_score : Option ℚ
  flow_score : Option ℚ
  session_score : Option ℚ

structure SizingResult where
  final_risk : ℚ
  adaptive_risk_percent : ℚ
  size_multiplier : F

/-- `EliteSignalEngine._apply_adaptive_sizing`: the multiplicative risk
formula followed by the `[0.5%, 5%]` clamp and the 2-decimal rounding of
the stored percentage. -/
def apply_adaptive_sizing (i : SizingInputs) : SizingResult :=
  let regime_multiplier : ℚ := i.position_size_multiplier.getD 1
  let score_multiplier : ℚ := (i.score : ℚ) / 10
  let correlation_multiplier : ℚ := 1/2 + i.correlation_score.getD (1/2)
  let flow_multiplier : ℚ := 1/2 + i.flow_score.getD (1/2)
  let session_multiplier : ℚ := min (6/5) (i.session_score.getD 1)
  let final_risk : ℚ :=
    max (1/200) (min (1/20)
      (i.base_risk * regime_multiplier * score_multiplier *
        correlation_multiplier * flow_multiplier * session_multiplier))
  { final_risk := final_risk,
    adaptive_risk_percent := pyRoundTo2 (final_risk * 100),
    size_multiplier := (fdiv (some final_risk) (some i.base_risk)).map pyRoundTo2 }

/-- C9: the adaptive risk percent equals the six-factor product clamped to
`[0.5%, 5%]` and scaled to percent, and it always lies in `[0.5, 5]`. -/
theorem adaptive_sizing_formula_and_bounds (i : SizingInputs) :
    (apply_adaptive_sizing i).adaptive_risk_percent =
      pyRoundTo2 (max (1/200) (min (1/20)
        (i.base_risk * i.position_size_multiplier.getD 1 * ((i.score : ℚ) / 10) *
          (1/2 + i.correlation_score.getD (1/2)) * (1/2 + i.flow_score.getD (1/2)) *
          min (6/5) (i.session_score.getD 1))) * 100) ∧
    1/2 ≤ (apply_adaptive_sizing i).adaptive_risk_percent ∧
    (apply_adaptive_sizing i).adaptive_risk_percent ≤ 5 := by
  have key : ∀ x : ℚ, 1/2 ≤ x → x ≤ 5 → 1/2 ≤ pyRoundTo2 x ∧ pyRoundTo2 x ≤ 5 := by
    intro x hx1 hx2
    have h50 : (50 : ℤ) ≤ pyRound (x * 100) := le_pyRound _ _ (by push_cast; linarith)
    have h500 : pyRound (x * 100) ≤ (500 : ℤ) := pyRound_le _ _ (by push_cast; linarith)
    unfold pyRoundTo2
    constructor
    · rw [le_div_iff₀ (by norm_num : (0:ℚ) < 100)]
      calc (1/2 : ℚ) * 100 = ((50 : ℤ) : ℚ) := by norm_num
        _ ≤ _ := by exact_mod_cast h50
    · rw [div_le_iff₀ (by norm_num : (0:ℚ) < 100)]
      calc ((pyRound (x * 100) : ℤ) : ℚ) ≤ ((500 : ℤ) : ℚ) := by exact_mod_cast h500
        _ = 5 * 100 := by norm_num
  set p : ℚ := i.base_risk * i.position_size_multiplier.getD 1 * ((i.score : ℚ) / 10) *
    (1/2 + i.correlation_score.getD (1/2)) * (1/2 + i.flow_score.getD (1/2)) *
    min (6/5) (i.session_score.getD 1) with hp
  have hlo : (1/200 : ℚ) ≤ max (1/200) (min (1/20) p) := le_max_left _ _
  have hhi : max (1/200) (min (1/20) p) ≤ 1/20 :=
    max_le (by norm_num) (min_le_left _ _)
  have hb := key (max (1/200) (min (1/20) p) * 100) (by linarith) (by linarith)
  exact ⟨rfl, hb.1, hb.2⟩

end SMC.Engine

namespace SMC.Store

open SMC

/-- One row of the `signals` table (schema of `SignalStore._init_db`). -/
structure SignalRow where
  id : ℕ
  ts_utc : String
  symbol : String
  tf : String
  side : Side
  entry : ℚ
  sl : ℚ
  tp1 : ℚ
  tp2 : ℚ
  tp3 : ℚ
  score : ℤ
  checklist_json : String
  notes_json : String
  ob_tf : String
  signal_hash : String
  active : Bool
  created_at : String
deriving DecidableEq, Repr

/-- One row of the `outcomes` table. -/
structure OutcomeRow where
  signal_id : ℕ
  hit_type : HitType
  price : ℚ
deriving DecidableEq, Repr

/-- The database state the store mutates. -/
structure StoreState where
  signals : List SignalRow
  outcomes : List OutcomeRow
deriving DecidableEq, Repr

/-- `SignalStore.record_outcome`: insert the outcome row, then run
`UPDATE signals SET active = 0 WHERE id = ?` only when the hit type is
`'SL'` or `'TP3'`. -/
def record_outcome (st : StoreState) (signal_id : ℕ) (hit_type : HitType)
    (price : ℚ) : StoreState :=
  { signals :=
      if hit_type = .SL ∨ hit_type = .TP3 then
        st.signals.map (fun s => if s.id = signal_id then { s with active := false } else s)
      else st.signals,
    outcomes := st.outcomes ++ [⟨signal_id, hit_type, price⟩] }

/-- A signal row with its `active` flag normalised away: two rows agree on
every field except possibly `active` iff `eraseActive` maps them equally. -/
def eraseActive (s : SignalRow) : SignalRow := { s with active := true }

/-- C10: recording an outcome appends exactly one outcome row; a TP1/TP2
outcome leaves the signals table entirely unchanged; for every hit type, no
stored field other than `active` ever changes, and `active` is cleared
exactly on the row with the given id when the hit type is SL or TP3. -/
theorem record_outcome_frame (st : StoreState) (signal_id : ℕ)
    (hit_type : HitType) (price : ℚ) :
    (record_outcome st signal_id hit_type price).outcomes =
      st.outcomes ++ [⟨signal_id, hit_type, price⟩] ∧
    ((hit_type = .TP1 ∨ hit_type = .TP2) →
      (record_outcome st signal_id hit_type price).signals = st.signals) ∧
    (record_outcome st signal_id hit_type price).signals.map eraseActive =
      st.signals.map eraseActive ∧
    (record_outcome st signal_id hit_type price).signals.map (fun s => (s.id, s.active)) =
      st.signals.map (fun s =>
        (s.id, if (hit_type = .SL ∨ hit_type = .TP3) ∧ s.id = signal_id then false
               else s.active)) := by
  refine ⟨rfl, ?_, ?_, ?_⟩
  · intro h
    rcases h with h | h <;> subst h <;> simp [record_outcome]
  · unfold record_outcome
    split_ifs with h
    · simp only [List.map_map]
      apply List.map_congr_left
      intro s _
      by_cases hs : s.id = signal_id <;> simp [hs, eraseActive]
    · rfl
  · unfold record_outcome
    split_ifs with h
    · simp only [List.map_map]
      apply List.map_congr_left
      intro s _
      by_cases hs : s.id = signal_id <;> simp [hs, h]
    · apply List.map_congr_left
      intro s _
      simp [h]

/-- A concrete one-row store used to witness `record_outcome_frame`. -/
def exampleStore : StoreState :=
  { signals := [{ id := 1, ts_utc := "2024-01-01T00:00:00", symbol := "XAUUSD",
                  tf := "H1", side := .BUY, entry := 2000, sl := 1995,
                  tp1 := 2005, tp2 := 2010, tp3 := 2015, score := 8,
                  checklist_json := "{}", notes_json := "[]", ob_tf := "H4",
                  signal_hash := "abc", active := true, created_at := "" }],
    outcomes := [] }

/-- Witness for C10 at a concrete store and a TP1 hit. -/
theorem record_outcome_frame_witness :
    (record_outcome exampleStore 1 .TP1 2005).signals = exampleStore.signals ∧
    (record_outcome exampleStore 1 .TP1 2005).outcomes =
      exampleStore.outcomes ++ [⟨1, .TP1, 2005⟩] := by
  refine ⟨(record_outcome_frame exampleStore 1 .TP1 2005).2.1 (Or.inl rfl),
    (record_outcome_frame exampleStore 1 .TP1 2005).1⟩

end SMC.Store

namespace SMC.Scoring

open SMC

/-!
`EliteScorer` (src/scoring.py).  Each sub-scorer below reproduces the
threshold cascade of the corresponding `_score_*` method verbatim; the
numeric indicator readings the method extracts from the price data (EMA
values, ATR, volume ratios, recent-momentum counts, ...) enter as explicit
rational parameters, so the theorems quantify over every value the pandas
code could produce.  Divisions that Python leaves unguarded (`body/atr`,
`dist/atr`) use Lean's `x / 0 = 0`; they only feed threshold comparisons
inside branches that the cap theorems quantify over anyway.
-/

/-- Liquidity-zone kinds (`'equal_high'│'equal_low'│'session_high'│'session_low'`). -/
inductive ZoneType where
  | equal_high
  | equal_low
  | session_high
  | session_low
deriving DecidableEq, Repr, Inhabited

/-- A liquidity zone as consumed by `_score_liquidity_confirmation`. -/
structure LZone where
  price : ℚ
  type : ZoneType
  strength : ℚ
deriving DecidableEq, Repr, Inhabited

/-- The FU-candle fields read by the scorer. -/
structure FUInfo where
  direction : Direction
  body_size : ℚ
  close_frac : ℚ
  volume_ratio : ℚ
deriving DecidableEq, Repr

/-- Imbalance kinds (`'bullish_fvg'` / `'bearish_fvg'`). -/
inductive ImbType where
  | bullish_fvg
  | bearish_fvg
deriving DecidableEq, Repr

/-- The imbalance fields read by `_score_imbalance_analysis`. -/
structure ImbInfo where
  type : ImbType
  idx : ℕ
  filled : Bool
deriving DecidableEq, Repr

/-- Python `max(zones, key=lambda x: x.strength)`: first zone of maximal
strength (`max` only replaces its candidate on a strictly greater key). -/
def pickStrongest : List LZone → LZone
  | [] => default
  | z :: rest => rest.foldl (fun acc w => if w.strength > acc.strength then w else acc) z

/-- `EliteScorer._score_daily_bias` (max 1.5). -/
def score_daily_bias (ema21 ema50 ema100 current_price : ℚ) (ob_bullish : Bool)
    (recent_momentum : ℚ) : ℚ :=
  let s1 : ℚ :=
    if (ema21 > ema50 ∧ ema50 > ema100 ∧ ob_bullish = true) ∨
       (ema21 < ema50 ∧ ema50 < ema100 ∧ ob_bullish = false) then 3/4
    else if (current_price > ema50 ∧ ob_bullish = true) ∨
            (current_price < ema50 ∧ ob_bullish = false) then 1/2
    else 0
  let s2 : ℚ := if recent_momentum > 3/5 then 1/4 else 0
  min (3/2) (s1 + s2)

/-- `EliteScorer._score_order_block_quality` (max 1.5); `volume_ratio` is
`ob.volume / avg_volume if avg_volume > 0 else 1` from the source. -/
def score_order_block_quality (displacement : ℚ) (tf : TF) (volume_ratio quality : ℚ) : ℚ :=
  let s1 : ℚ := if displacement ≥ 3 then 1/2
    else if displacement ≥ 2 then 3/10
    else if displacement ≥ 3/2 then 1/10
    else 0
  let s2 : ℚ := if tf = TF.H4 then 1/2 else if tf = TF.H1 then 3/10 else 0
  let s3 : ℚ := if volume_ratio ≥ 3/2 then 1/4 else if volume_ratio ≥ 6/5 then 3/20 else 0
  let s4 : ℚ := if quality ≥ 4/5 then 1/4 else if quality ≥ 3/5 then 3/20 else 0
  min (3/2) (s1 + s2 + s3 + s4)

/-- `EliteScorer._score_liquidity_confirmation` (max 1.5); `grab` is the
strength field of `liquidity_grab_detected(h1)` when a grab was returned. -/
def score_liquidity_confirmation (grab : Option ℚ) (liquidity_zones : List LZone)
    (current_price atr_val : ℚ) (ob_bullish : Bool) : ℚ :=
  let s_grab : ℚ :=
    if grab.isSome = true then 1/2 + (if grab.getD 0 ≥ 1 then 1/4 else 0) else 0
  let relevant_zones : List LZone := liquidity_zones.filter (fun z =>
    (ob_bullish = true ∧ (z.type = .equal_low ∨ z.type = .session_low)) ∨
    (ob_bullish = false ∧ (z.type = .equal_high ∨ z.type = .session_high)))
  let s_zone : ℚ :=
    if liquidity_zones ≠ [] then
      if relevant_zones ≠ [] then
        if |current_price - (pickStrongest relevant_zones).price| ≤ atr_val * (1/2) then 1/2
        else if |current_price - (pickStrongest relevant_zones).price| ≤ atr_val then 1/4
        else 0
      else 0
    else 0
  let confirmations : ℕ :=
    (if grab.isSome = true then 1 else 0) + (if liquidity_zones ≠ [] then 1 else 0)
  let s_conf : ℚ := if confirmations ≥ 2 then 1/4 else 0
  min (3/2) (s_grab + s_zone + s_conf)

/-- `EliteScorer._score_fu_candle_strength` (max 1.5). -/
def score_fu_candle_strength (fu : Option FUInfo) (atr_val : ℚ) (ob_bullish : Bool) : ℚ :=
  match fu with
  | Option.none => 0
  | some f =>
    let body_atr_ratio : ℚ := f.body_size / atr_val
    let s1 : ℚ := if body_atr_ratio ≥ 6/5 then 1/2
      else if body_atr_ratio ≥ 4/5 then 3/10
      else if body_atr_ratio ≥ 1/2 then 1/10
      else 0
    let s2 : ℚ :=
      if (f.direction = .bullish ∧ f.close_frac ≥ 7/10) ∨
         (f.direction = .bearish ∧ f.close_frac ≤ 3/10) then 2/5
      else if (f.direction = .bullish ∧ f.close_frac ≥ 3/5) ∨
              (f.direction = .bearish ∧ f.close_frac ≤ 2/5) then 1/5
      else 0
    let s3 : ℚ :=
      if (f.direction = .bullish ∧ ob_bullish = false) ∨
         (f.direction = .bearish ∧ ob_bullish = true) then 3/10
      else 0
    let s4 : ℚ := if f.volume_ratio ≥ 2 then 3/10 else if f.volume_ratio ≥ 3/2 then 3/20 else 0
    min (3/2) (s1 + s2 + s3 + s4)

/-- `EliteScorer._score_market_structure` (max 1.5); the `bos_*` triples are
the results of `bos_mss_confirmed` on H1 and H4. -/
def score_market_structure (bos_h1 : Bool) (dir_h1 : Direction) (strength_h1 : ℚ)
    (bos_h4 : Bool) (dir_h4 : Direction) (strength_h4 : ℚ)
    (ob_bullish : Bool) (recent_momentum : ℚ) : ℚ :=
  let want : Direction := if ob_bullish = true then .bullish else .bearish
  let s1 : ℚ :=
    if bos_h4 = true ∧ dir_h4 = want then 3/4
    else if bos_h1 = true ∧ dir_h1 = want then 1/2
    else if strength_h1 ≥ 7/10 ∨ strength_h4 ≥ 7/10 then 1/4
    else 0
  let s2 : ℚ :=
    if (ob_bullish = true ∧ dir_h1 = .bullish ∧ dir_h4 = .bullish) ∨
       (ob_bullish = false ∧ dir_h1 = .bearish ∧ dir_h4 = .bearish) then 1/2
    else 0
  let s3 : ℚ := if recent_momentum ≥ 7/10 then 1/4 else 0
  min (3/2) (s1 + s2 + s3)

/-- `EliteScorer._score_institutional_zone` (max 1.0). -/
def score_institutional_zone (current_price body_high body_low atr_val : ℚ) : ℚ :=
  let distance_atr : ℚ := |current_price - (body_high + body_low) / 2| / atr_val
  let s : ℚ :=
    if distance_atr ≤ 3/10 then 1
    else if distance_atr ≤ 1/2 then 7/10
    else if distance_atr ≤ 4/5 then 2/5
    else if distance_atr ≤ 1 then 1/5
    else 0
  min 1 s

/-- `EliteScorer._score_volume_confirmation` (max 1.0); `volume_ratio` is
the guarded 10-bar/20-bar recent-volume ratio, `ob_volume_ratio` the
`ob.volume / rolling20 if ob.idx < len(h1) else 1` expression. -/
def score_volume_confirmation (volume_ratio : ℚ) (fu : Option FUInfo)
    (ob_volume_ratio : ℚ) : ℚ :=
  let s1 : ℚ := if volume_ratio ≥ 3/2 then 1/2 else if volume_ratio ≥ 6/5 then 3/10 else 0
  let s2 : ℚ := match fu with
    | some f => if f.volume_ratio ≥ 3/2 then 3/10 else 0
    | Option.none => 0
  let s3 : ℚ := if ob_volume_ratio ≥ 3/2 then 1/5 else 0
  min 1 (s1 + s2 + s3)

/-- `EliteScorer._score_imbalance_analysis` (max 0.5). -/
def score_imbalance_analysis (imbalances : List ImbInfo) (h1_len : ℕ)
    (ob_bullish : Bool) : ℚ :=
  let recent := imbalances.filter (fun imb => imb.idx ≥ h1_len - 10)
  let filled := recent.filter (fun imb => imb.filled = true)
  let unfilled := recent.filter (fun imb => imb.filled = false)
  let s1 : ℚ := if filled ≠ [] then 1/4 else 0
  let directional := unfilled.filter (fun imb =>
    (ob_bullish = true ∧ imb.type = .bullish_fvg) ∨
    (ob_bullish = false ∧ imb.type = .bearish_fvg))
  let s2 : ℚ := if directional ≠ [] then 1/4 else 0
  min (1/2) (s1 + s2)

/-- All the indicator readings `calculate_elite_score` feeds its eight
sub-scorers (grouped per category, in source order). -/
structure ScoreInputs where
  ob_bullish : Bool
  ob_tf : TF
  ob_displacement : ℚ
  ob_quality : ℚ
  ob_body_high : ℚ
  ob_body_low : ℚ
  d1_ema21 : ℚ
  d1_ema50 : ℚ
  d1_ema100 : ℚ
  d1_price : ℚ
  d1_momentum : ℚ
  ob_volume_ratio : ℚ
  grab : Option ℚ
  liquidity_zones : List LZone
  h1_price : ℚ
  h1_atr : ℚ
  fu : Option FUInfo
  h1_bos : Bool
  h1_dir : Direction
  h1_strength : ℚ
  h4_bos : Bool
  h4_dir : Direction
  h4_strength : ℚ
  h1_momentum : ℚ
  recent_volume_ratio : ℚ
  ob_volume_ratio2 : ℚ
  imbalances : List ImbInfo
  h1_len : ℕ

/-- The per-category breakdown dict of `calculate_elite_score`. -/
structure ScoreBreakdown where
  daily_bias : ℚ
  ob_quality : ℚ
  liquidity : ℚ
  fu_strength : ℚ
  market_structure : ℚ
  institutional_zone : ℚ
  volume : ℚ
  imbalance : ℚ
deriving DecidableEq, Repr

def breakdownOf (i : ScoreInputs) : ScoreBreakdown :=
  { daily_bias := score_daily_bias i.d1_ema21 i.d1_ema50 i.d1_ema100 i.d1_price
      i.ob_bullish i.d1_momentum,
    ob_quality := score_order_block_quality i.ob_displacement i.ob_tf
      i.ob_volume_ratio i.ob_quality,
    liquidity := score_liquidity_confirmation i.grab i.liquidity_zones i.h1_price
      i.h1_atr i.ob_bullish,
    fu_strength := score_fu_candle_strength i.fu i.h1_atr i.ob_bullish,
    market_structure := score_market_structure i.h1_bos i.h1_dir i.h1_strength
      i.h4_bos i.h4_dir i.h4_strength i.ob_bullish i.h1_momentum,
    institutional_zone := score_institutional_zone i.h1_price i.ob_body_high
      i.ob_body_low i.h1_atr,
    volume := score_volume_confirmation i.recent_volume_ratio i.fu i.ob_volume_ratio2,
    imbalance := score_imbalance_analysis i.imbalances i.h1_len i.ob_bullish }

/-- The running `total_score` of `calculate_elite_score`. -/
def elite_raw_total (i : ScoreInputs) : ℚ :=
  (breakdownOf i).daily_bias + (breakdownOf i).ob_quality + (breakdownOf i).liquidity +
    (breakdownOf i).fu_strength + (breakdownOf i).market_structure +
    (breakdownOf i).institutional_zone + (breakdownOf i).volume + (breakdownOf i).imbalance

/-- `EliteScorer.calculate_elite_score`:
`final_score = max(1, min(10, int(round(total_score * 2))))`. -/
def calculate_elite_score (i : ScoreInputs) : ℤ × ScoreBreakdown :=
  (max 1 (min 10 (pyRound (elite_raw_total i * 2))), breakdownOf i)

theorem score_daily_bias_bounds (a b c d : ℚ) (e : Bool) (f : ℚ) :
    0 ≤ score_daily_bias a b c d e f ∧ score_daily_bias a b c d e f ≤ 3/2 := by
  refine ⟨?_, min_le_left _ _⟩
  unfold score_daily_bias
  refine le_min (by norm_num) ?_
  split_ifs <;> norm_num

theorem score_order_block_quality_bounds (a : ℚ) (t : TF) (b c : ℚ) :
    0 ≤ score_order_block_quality a t b c ∧ score_order_block_quality a t b c ≤ 3/2 := by
  refine ⟨?_, min_le_left _ _⟩
  unfold score_order_block_quality
  refine le_min (by norm_num) ?_
  split_ifs <;> norm_num

theorem score_liquidity_confirmation_bounds (g : Option ℚ) (zs : List LZone)
    (p a : ℚ) (bl : Bool) :
    0 ≤ score_liquidity_confirmation g zs p a bl ∧
      score_liquidity_confirmation g zs p a bl ≤ 3/2 := by
  refine ⟨?_, min_le_left _ _⟩
  unfold score_liquidity_confirmation
  refine le_min (by norm_num) ?_
  split_ifs <;> norm_num

theorem score_fu_candle_strength_bounds (fu : Option FUInfo) (a : ℚ) (bl : Bool) :
    0 ≤ score_fu_candle_strength fu a bl ∧ score_fu_candle_strength fu a bl ≤ 3/2 := by
  cases fu with
  | none => constructor <;> norm_num [score_fu_candle_strength]
  | some f =>
    refine ⟨?_, min_le_left _ _⟩
    unfold score_fu_candle_strength
    refine le_min (by norm_num) ?_
    split_ifs <;> norm_num

theorem score_market_structure_bounds (b1 : Bool) (d1 : Direction) (s1 : ℚ)
    (b4 : Bool) (d4 : Direction) (s4 : ℚ) (bl : Bool) (m : ℚ) :
    0 ≤ score_market_structure b1 d1 s1 b4 d4 s4 bl m ∧
      score_market_structure b1 d1 s1 b4 d4 s4 bl m ≤ 3/2 := by
  refine ⟨?_, min_le_left _ _⟩
  unfold score_market_structure
  refine le_min (by norm_num) ?_
  split_ifs <;> norm_num

theorem score_institutional_zone_bounds (p bh bl a : ℚ) :
    0 ≤ score_institutional_zone p bh bl a ∧ score_institutional_zone p bh bl a ≤ 1 := by
  refine ⟨?_, min_le_left _ _⟩
  unfold score_institutional_zone
  refine le_min (by norm_num) ?_
  split_ifs <;> norm_num

theorem score_volume_confirmation_bounds (v : ℚ) (fu : Option FUInfo) (ov : ℚ) :
    0 ≤ score_volume_confirmation v fu ov ∧ score_volume_confirmation v fu ov ≤ 1 := by
  cases fu with
  | none =>
    refine ⟨?_, min_le_left _ _⟩
    unfold score_volume_confirmation
    refine le_min (by norm_num) ?_
    split_ifs <;> norm_num
  | some f =>
    refine ⟨?_, min_le_left _ _⟩
    simp only [score_volume_confirmation]
    refine le_min (by norm_num) ?_
    split_ifs <;> norm_num

theorem score_imbalance_analysis_bounds (imbs : List ImbInfo) (n : ℕ) (bl : Bool) :
    0 ≤ score_imbalance_analysis imbs n bl ∧ score_imbalance_analysis imbs n bl ≤ 1/2 := by
  refine ⟨?_, min_le_left _ _⟩
  unfold score_imbalance_analysis
  refine le_min (by norm_num) ?_
  split_ifs <;> norm_num

/-- C1: every category stays within its declared cap, the raw total never
exceeds 10.0, and the returned integer score is
`clamp(round(raw_total * 2), 1, 10)`, hence always in `[1, 10]`. -/
theorem elite_score_caps_and_range (i : ScoreInputs) :
    ((breakdownOf i).daily_bias ≤ 3/2 ∧ (breakdownOf i).ob_quality ≤ 3/2 ∧
      (breakdownOf i).liquidity ≤ 3/2 ∧ (breakdownOf i).fu_strength ≤ 3/2 ∧
      (breakdownOf i).market_structure ≤ 3/2 ∧
      (breakdownOf i).institutional_zone ≤ 1 ∧ (breakdownOf i).volume ≤ 1 ∧
      (breakdownOf i).imbalance ≤ 1/2) ∧
    0 ≤ elite_raw_total i ∧ elite_raw_total i ≤ 10 ∧
    (calculate_elite_score i).1 = max 1 (min 10 (pyRound (elite_raw_total i * 2))) ∧
    1 ≤ (calculate_elite_score i).1 ∧ (calculate_elite_score i).1 ≤ 10 := by
  have h1 := score_daily_bias_bounds i.d1_ema21 i.d1_ema50 i.d1_ema100 i.d1_price
    i.ob_bullish i.d1_momentum
  have h2 := score_order_block_quality_bounds i.ob_displacement i.ob_tf
    i.ob_volume_ratio i.ob_quality
  have h3 := score_liquidity_confirmation_bounds i.grab i.liquidity_zones i.h1_price
    i.h1_atr i.ob_bullish
  have h4 := score_fu_candle_strength_bounds i.fu i.h1_atr i.ob_bullish
  have h5 := score_market_structure_bounds i.h1_bos i.h1_dir i.h1_strength
    i.h4_bos i.h4_dir i.h4_strength i.ob_bullish i.h1_momentum
  have h6 := score_institutional_zone_bounds i.h1_price i.ob_body_high
    i.ob_body_low i.h1_atr
  have h7 := score_volume_confirmation_bounds i.recent_volume_ratio i.fu
    i.ob_volume_ratio2
  have h8 := score_imbalance_analysis_bounds i.imbalances i.h1_len i.ob_bullish
  refine ⟨⟨h1.2, h2.2, h3.2, h4.2, h5.2, h6.2, h7.2, h8.2⟩, ?_, ?_, rfl, ?_, ?_⟩
  · unfold elite_raw_total breakdownOf
    dsimp only
    linarith [h1.1, h2.1, h3.1, h4.1, h5.1, h6.1, h7.1, h8.1]
  · unfold elite_raw_total breakdownOf
    dsimp only
    linarith [h1.2, h2.2, h3.2, h4.2, h5.2, h6.2, h7.2, h8.2]
  · exact le_max_left _ _
  · exact max_le (by norm_num) (le_trans (min_le_left _ _) (by norm_num))

namespace SMC.Detectors

open SMC
open SMC.Scoring (ZoneType ImbType)

/-!
`InstitutionalDetector` (src/detectors.py), instantiated at the config
defaults of its constructor: `min_displacement = 2.0`, `fu_body_atr = 0.8`,
`fu_close_frac = 0.6`, `ob_prox_atr = 1.0`.
-/

def min_displacement : ℚ := 2
def fu_body_atr : ℚ := 4/5
def fu_close_frac : ℚ := 3/5

/-- `InstitutionalDetector.bos_mss_confirmed`: note that
`df['h'].tail(lookback)` / `df['l'].tail(lookback)` include the latest bar
itself, exactly as in the source. -/
def bos_mss_confirmed (df : Series) (lookback : ℕ) : Bool × Direction × ℚ :=
  if df.length < lookback + 5 then (false, .none, 0)
  else
    let resistance := maxD (takeLast lookback (highs df))
    let support := minD (takeLast lookback (lows df))
    let current_high := lastQ (highs df)
    let current_low := lastQ (lows df)
    let current_close := lastQ (closes df)
    if current_high > resistance ∧ current_close > resistance then
      (true, .bullish,
        1/2 + (1/2) * (if current_high > getQ (highs df) (df.length - 2) ∧
                          current_low > getQ (lows df) (df.length - 2) then 1 else 0))
    else if current_low < support ∧ current_close < support then
      (true, .bearish,
        1/2 + (1/2) * (if current_high < getQ (highs df) (df.length - 2) ∧
                          current_low < getQ (lows df) (df.length - 2) then 1 else 0))
    else (false, .none, 0)

/-- A liquidity zone as produced by the detector (`strength` can carry the
NaN of a warm-up rolling volume mean). -/
structure LiquidityZone where
  price : ℚ
  type : ZoneType
  strength : F
  timeframe : TF
deriving DecidableEq, Repr

/-- `InstitutionalDetector._find_equal_highs` (`left_bars = 3`,
`right_bars = 2`; the window slice `iloc[i-3:i+3]` has six entries). -/
def find_equal_highs (df : Series) (tf : TF) : List LiquidityZone :=
  (List.range' 3 (df.length - 5)).filterMap (fun i =>
    if getQ (highs df) i = maxD (((highs df).drop (i - 3)).take 6) ∧
        2 ≤ ((((highs df).drop (i - 3)).take 6).filter
              (fun x => x = getQ (highs df) i)).length then
      some { price := getQ (highs df) i, type := .equal_high,
             strength := pymin (some 1)
               (fadd
                 (fmul (fdiv (some (getQ (vols df) i)) (rollingMeanAt (vols df) 20 i))
                   (some (3/5)))
                 (fmul (fdiv (some (getQ (highs df) i - getQ (closes df) i))
                     (some (getQ (highs df) i - getQ (lows df) i)))
                   (some (2/5)))),
             timeframe := tf }
    else Option.none)

/-- `InstitutionalDetector._find_equal_lows`. -/
def find_equal_lows (df : Series) (tf : TF) : List LiquidityZone :=
  (List.range' 3 (df.length - 5)).filterMap (fun i =>
    if getQ (lows df) i = minD (((lows df).drop (i - 3)).take 6) ∧
        2 ≤ ((((lows df).drop (i - 3)).take 6).filter
              (fun x => x = getQ (lows df) i)).length then
      some { price := getQ (lows df) i, type := .equal_low,
             strength := pymin (some 1)
               (fadd
                 (fmul (fdiv (some (getQ (vols df) i)) (rollingMeanAt (vols df) 20 i))
                   (some (3/5)))
                 (fmul (fdiv (some (getQ (closes df) i - getQ (lows df) i))
                     (some (getQ (highs df) i - getQ (lows df) i)))
                   (some (2/5)))),
             timeframe := tf }
    else Option.none)

/-- `InstitutionalDetector._find_session_highs` (trailing 100-bar high). -/
def find_session_highs (df : Series) (tf : TF) : List LiquidityZone :=
  if 100 ≤ df.length then
    [{ price := maxD (takeLast 100 (highs df)), type := .session_high,
       strength := some (4/5), timeframe := tf }]
  else []

/-- `InstitutionalDetector._find_session_lows` (trailing 100-bar low). -/
def find_session_lows (df : Series) (tf : TF) : List LiquidityZone :=
  if 100 ≤ df.length then
    [{ price := minD (takeLast 100 (lows df)), type := .session_low,
       strength := some (4/5), timeframe := tf }]
  else []

/-- Stable insertion into a strength-descending list (Python's stable
`sorted(..., key=strength, reverse=True)`). -/
def insertZoneDesc (z : LiquidityZone) : List LiquidityZone → List LiquidityZone
  | [] => [z]
  | w :: t => if flt w.strength z.strength then z :: w :: t else w :: insertZoneDesc z t

def sortZonesDesc : List LiquidityZone → List LiquidityZone
  | [] => []
  | z :: t => insertZoneDesc z (sortZonesDesc t)

/-- `InstitutionalDetector.find_liquidity_zones`. -/
def find_liquidity_zones (df : Series) (tf : TF) : List LiquidityZone :=
  sortZonesDesc (find_equal_highs df tf ++ find_equal_lows df tf ++
    find_session_highs df tf ++ find_session_lows df tf)

inductive GrabType where
  | grab_highs
  | grab_lows
deriving DecidableEq, Repr

/-- The dict returned by `liquidity_grab_detected`. -/
structure GrabResult where
  type : GrabType
  sweep_price : ℚ
  strength : F
  volume_ratio : F
  atr_distance : F
deriving DecidableEq, Repr

/-- `Series.idxmax` of `xs.tail(20)` as an absolute position (pandas
returns the label of the first maximal entry). -/
def idxmaxFrom (xs : List ℚ) (start : ℕ) : ℕ :=
  start + (xs.drop start).findIdx (fun x => decide (x = maxD (xs.drop start)))

/-- `Series.idxmin` of `xs.tail(20)` as an absolute position. -/
def idxminFrom (xs : List ℚ) (start : ℕ) : ℕ :=
  start + (xs.drop start).findIdx (fun x => decide (x = minD (xs.drop start)))

/-- `InstitutionalDetector.liquidity_grab_detected`.  As in the source, the
20-bar swing window includes the latest bar itself. -/
def liquidity_grab_detected (df : Series) : Option GrabResult :=
  if df.length < 10 then Option.none
  else
    let cur := lastBar df
    let start := df.length - 20
    let swing_high := maxD (takeLast 20 (highs df))
    let swing_low := minD (takeLast 20 (lows df))
    let swing_high_idx := idxmaxFrom (highs df) start
    let swing_low_idx := idxminFrom (lows df) start
    let atr_val := atrLast df
    if swing_high < cur.h ∧ cur.c < swing_high ∧ getQ (vols df) swing_high_idx < cur.v then
      some { type := .grab_highs, sweep_price := swing_high,
             strength := pymin (some 2) (fdiv (some (cur.h - swing_high)) atr_val),
             volume_ratio := fdiv (some cur.v) (some (getQ (vols df) swing_high_idx)),
             atr_distance := fdiv (some (cur.h - swing_high)) atr_val }
    else if cur.l < swing_low ∧ swing_low < cur.c ∧ getQ (vols df) swing_low_idx < cur.v then
      some { type := .grab_lows, sweep_price := swing_low,
             strength := pymin (some 2) (fdiv (some (swing_low - cur.l)) atr_val),
             volume_ratio := fdiv (some cur.v) (some (getQ (vols df) swing_low_idx)),
             atr_distance := fdiv (some (swing_low - cur.l)) atr_val }
    else Option.none

/-- The FU-candle record produced by the detector (`strength` is a float
that can involve NaN arithmetic, hence `F`). -/
structure FUCandle where
  idx : ℕ
  direction : Direction
  body_size : ℚ
  range_size : ℚ
  close_frac : ℚ
  volume_ratio : ℚ
  strength : F
deriving DecidableEq, Repr

/-- `InstitutionalDetector._calculate_fu_strength`. -/
def calculate_fu_strength (df : Series) (direction : Direction) (body_size : ℚ)
    (atr_val : F) (volume_ratio : ℚ) : F :=
  let body_strength := pymin (some (2/5)) (fmul (fdiv (some body_size) atr_val) (some (2/5)))
  let volume_strength : F := some (min (3/10) (min 3 volume_ratio * (1/10)))
  let cur := lastBar df
  let rejection : F :=
    if direction = Direction.bullish then
      fdiv (some (cur.c - cur.l)) (some (cur.h - cur.l))
    else
      fdiv (some (cur.h - cur.c)) (some (cur.h - cur.l))
  let rejection_strength := pymin (some (3/10)) (fmul rejection (some (3/10)))
  fadd (fadd body_strength volume_strength) rejection_strength

/-- `InstitutionalDetector.detect_elite_fu_candle`.  The body-vs-ATR guard
`if body_size < fu_body_atr * atr: return None` is False (so the candidate
survives) when the ATR is still NaN, exactly as in numpy. -/
def detect_elite_fu_candle (df : Series) : Option FUCandle :=
  if df.length < 10 then Option.none
  else
    let cur := lastBar df
    let atr_val := atrLast df
    let body_size := |cur.c - cur.o|
    let range_size := cur.h - cur.l
    if flt (some body_size) (fmul (some fu_body_atr) atr_val) = true then Option.none
    else
      let volume_ratio : ℚ :=
        match rollingMeanLast (vols df) 20 with
        | some a => if 0 < a then cur.v / a else 1
        | Option.none => 1
      let close_frac : ℚ := if 0 < range_size then (cur.c - cur.l) / range_size else 1/2
      if cur.l < minD (takeLast 9 (lows df.dropLast)) ∧ fu_close_frac ≤ close_frac then
        some { idx := df.length - 1, direction := .bullish, body_size := body_size,
               range_size := range_size, close_frac := close_frac,
               volume_ratio := volume_ratio,
               strength := calculate_fu_strength df .bullish body_size atr_val volume_ratio }
      else if maxD (takeLast 9 (highs df.dropLast)) < cur.h ∧ close_frac ≤ 1 - fu_close_frac then
        some { idx := df.length - 1, direction := .bearish, body_size := body_size,
               range_size := range_size, close_frac := close_frac,
               volume_ratio := volume_ratio,
               strength := calculate_fu_strength df .bearish body_size atr_val volume_ratio }
      else Option.none

/-- The order-block record (`displacement` can carry NaN arithmetic). -/
structure OrderBlock where
  idx : ℕ
  bullish : Bool
  body_low : ℚ
  body_high : ℚ
  wick_low : ℚ
  wick_high : ℚ
  tf : TF
  displacement : F
  volume : ℚ
  quality : ℚ
deriving DecidableEq, Repr

/-- `InstitutionalDetector._calculate_candle_quality`. -/
def calculate_candle_quality (df : Series) (idx : ℕ) : ℚ :=
  let body_size := |getQ (closes df) idx - getQ (opens df) idx|
  let range_size := getQ (highs df) idx - getQ (lows df) idx
  let body_ratio : ℚ := if 0 < range_size then body_size / range_size else 0
  let volume_ratio : ℚ :=
    match rollingMeanAt (vols df) 20 idx with
    | some a => if 0 < a then getQ (vols df) idx / a else 1
    | Option.none => 1
  min 1 (body_ratio * (2/5) + min 2 volume_ratio * (3/10) + (1/2) * (3/10))

/-- `InstitutionalDetector._calculate_displacement`.  The `atr <= 0` guard
is False on a NaN ATR (warm-up), exactly as in numpy, in which case the NaN
flows into the base term while the volume boost is capped to 0.5 by the
Python `min`. -/
def calculate_displacement (df : Series) (idx : ℕ) : F :=
  let atr_val := atrAt df 14 idx
  if fle atr_val (some 0) = true then some 0
  else
    let body := |getQ (closes df) idx - getQ (opens df) idx|
    let rng := getQ (highs df) idx - getQ (lows df) idx
    let volume_ratio := fdiv (some (getQ (vols df) idx)) (rollingMeanAt (vols df) 20 idx)
    fadd
      (fmul (fmul (fdiv (some body) atr_val) (fdiv (some rng) atr_val)) (some (1/2)))
      (pymin (some (1/2)) (fmul (fsub volume_ratio (some 1)) (some (1/4))))

/-- `InstitutionalDetector._find_elite_opposite_candle`: scan indices
`start_idx-1` down to `max(0, start_idx-15)+1`, keeping the first strictly
best quality. -/
def find_elite_opposite_candle (df : Series) (start_idx : ℕ) (find_bearish : Bool) :
    Option ℕ × ℚ :=
  ((List.range' (start_idx - 15 + 1) (start_idx - 1 - (start_idx - 15))).reverse).foldl
    (fun best i =>
      if (find_bearish = true ∧ getQ (closes df) i < getQ (opens df) i) ∨
          (find_bearish = false ∧ getQ (opens df) i < getQ (closes df) i) then
        if best.2 < calculate_candle_quality df i then
          (some i, calculate_candle_quality df i)
        else best
      else best)
    (Option.none, 0)

/-- `InstitutionalDetector._create_elite_order_block`. -/
def create_elite_order_block (df : Series) (idx : ℕ) (bullish : Bool) (tf : TF)
    (displacement : F) (quality : ℚ) : OrderBlock :=
  { idx := idx, bullish := bullish,
    body_low := min (getQ (opens df) idx) (getQ (closes df) idx),
    body_high := max (getQ (opens df) idx) (getQ (closes df) idx),
    wick_low := getQ (lows df) idx, wick_high := getQ (highs df) idx,
    tf := tf, displacement := displacement,
    volume := getQ (vols df) idx, quality := quality }

/-- Strictly-less on the Python sort key `(quality, displacement)` (float
tuple comparison; NaN displacement compares False both ways). -/
def blockKeyLt (a b : OrderBlock) : Bool :=
  decide (a.quality < b.quality) ||
    (decide (a.quality = b.quality) && flt a.displacement b.displacement)

def insertBlockDesc (z : OrderBlock) : List OrderBlock → List OrderBlock
  | [] => [z]
  | w :: t => if blockKeyLt w z then z :: w :: t else w :: insertBlockDesc z t

def sortBlocksDesc : List OrderBlock → List OrderBlock
  | [] => []
  | z :: t => insertBlockDesc z (sortBlocksDesc t)

/-- `InstitutionalDetector.find_elite_order_blocks`. -/
def find_elite_order_blocks (df : Series) (tf : TF) : List OrderBlock :=
  sortBlocksDesc ((List.range' 20 (df.length - 30)).filterMap (fun i =>
    if flt (calculate_displacement df i) (some min_displacement) = true then Option.none
    else if getQ (opens df) i < getQ (closes df) i then
      match find_elite_opposite_candle df i true with
      | (some ob_idx, quality) =>
        some (create_elite_order_block df ob_idx false tf (calculate_displacement df i) quality)
      | (Option.none, _) => Option.none
    else
      match find_elite_opposite_candle df i false with
      | (some ob_idx, quality) =>
        some (create_elite_order_block df ob_idx true tf (calculate_displacement df i) quality)
      | (Option.none, _) => Option.none))

/-- The imbalance dict of `find_imbalances`. -/
structure Imbalance where
  type : ImbType
  low : ℚ
  high : ℚ
  gap_size : ℚ
  idx : ℕ
  filled : Bool
  strength : F
deriving DecidableEq, Repr

/-- `InstitutionalDetector.find_imbalances`.  The source reads
`df['c'].iloc[-1]` unconditionally after the scan loop, which raises on an
empty frame: that raise is modelled as `Option.none`. -/
def find_imbalances (df : Series) (min_gap_size : ℚ) : Option (List Imbalance) :=
  match (closes df).getLast? with
  | Option.none => Option.none
  | some current_price =>
    some ((List.range' 2 (df.length - 3)).filterMap (fun i =>
      if getQ (highs df) (i - 1) + min_gap_size < getQ (lows df) i then
        some { type := .bullish_fvg, low := getQ (highs df) (i - 1),
               high := getQ (lows df) i,
               gap_size := getQ (lows df) i - getQ (highs df) (i - 1), idx := i,
               filled := decide (getQ (highs df) (i - 1) ≤ current_price ∧
                 current_price ≤ getQ (lows df) i),
               strength := pymin (some 1)
                 (fdiv (some (getQ (lows df) i - getQ (highs df) (i - 1))) (atrAt df 14 i)) }
      else if getQ (highs df) i < getQ (lows df) (i - 1) - min_gap_size then
        some { type := .bearish_fvg, high := getQ (lows df) (i - 1),
               low := getQ (highs df) i,
               gap_size := getQ (lows df) (i - 1) - getQ (highs df) i, idx := i,
               filled := decide (getQ (highs df) i ≤ current_price ∧
                 current_price ≤ getQ (lows df) (i - 1)),
               strength := pymin (some 1)
                 (fdiv (some (getQ (lows df) (i - 1) - getQ (highs df) i)) (atrAt df 14 i)) }
      else Option.none))

theorem le_foldl_max (x : ℚ) (t : List ℚ) : x ≤ t.foldl max x := by
  induction t generalizing x with
  | nil => exact le_refl x
  | cons y t ih => exact le_trans (le_max_left x y) (ih (max x y))

theorem mem_le_foldl_max {a : ℚ} (t : List ℚ) (x : ℚ) (h : a ∈ t) :
    a ≤ t.foldl max x := by
  induction t generalizing x with
  | nil => cases h
  | cons y t ih =>
    rcases List.mem_cons.mp h with h | h
    · subst h
      exact le_trans (le_max_right x a) (le_foldl_max _ t)
    · exact ih (max x y) h

theorem le_maxD_of_mem {a : ℚ} {l : List ℚ} (h : a ∈ l) : a ≤ maxD l := by
  cases l with
  | nil => cases h
  | cons x t =>
    rcases List.mem_cons.mp h with h | h
    · subst h; exact le_foldl_max a t
    · exact mem_le_foldl_max t x h

theorem foldl_min_le (x : ℚ) (t : List ℚ) : t.foldl min x ≤ x := by
  induction t generalizing x with
  | nil => exact le_refl x
  | cons y t ih => exact le_trans (ih (min x y)) (min_le_left x y)

theorem foldl_min_le_mem {a : ℚ} (t : List ℚ) (x : ℚ) (h : a ∈ t) :
    t.foldl min x ≤ a := by
  induction t generalizing x with
  | nil => cases h
  | cons y t ih =>
    rcases List.mem_cons.mp h with h | h
    · subst h
      exact le_trans (foldl_min_le _ t) (min_le_right x a)
    · exact ih (min x y) h

theorem minD_le_of_mem {a : ℚ} {l : List ℚ} (h : a ∈ l) : minD l ≤ a := by
  cases l with
  | nil => cases h
  | cons x t =>
    rcases List.mem_cons.mp h with h | h
    · subst h; exact foldl_min_le a t
    · exact foldl_min_le_mem t x h

/-- The last entry of a series belongs to every nonempty pandas tail. -/
theorem lastQ_mem_takeLast (xs : List ℚ) (n : ℕ) (hn : 1 ≤ n) (hxs : xs ≠ []) :
    lastQ xs ∈ takeLast n xs := by
  have hlen : 1 ≤ xs.length := List.length_pos.mpr hxs
  have hk : xs.length - n < xs.length := by omega
  have hd : xs.drop (xs.length - n) ≠ [] := by
    intro hnil
    have := List.drop_eq_nil_iff.mp hnil
    omega
  have hlast : (xs.drop (xs.length - n)).getLast? = xs.getLast? := by
    rw [List.getLast?_drop, if_neg (by omega)]
  have : lastQ xs = (xs.drop (xs.length - n)).getLast hd := by
    unfold lastQ
    rw [← hlast, List.getLast?_eq_getLast _ hd]
    rfl
  rw [takeLast, this]
  exact List.getLast_mem hd

/-- The lookback window of `bos_mss_confirmed` includes the latest bar, so
`current_high > resistance` (and `current_low < support`) can never hold:
the detector never confirms a break, whatever the series. -/
theorem bos_mss_never_confirms (df : Series) (lookback : ℕ) (hlb : 1 ≤ lookback) :
    (bos_mss_confirmed df lookback).1 = false := by
  by_cases hcond : df.length < lookback + 5
  · simp [bos_mss_confirmed, hcond]
  · have hne_h : highs df ≠ [] := by
      intro hc
      have hl : df.length = 0 := by simpa [highs] using congrArg List.length hc
      omega
    have hne_l : lows df ≠ [] := by
      intro hc
      have hl : df.length = 0 := by simpa [lows] using congrArg List.length hc
      omega
    have hA : ¬(lastQ (highs df) > maxD (takeLast lookback (highs df)) ∧
        lastQ (closes df) > maxD (takeLast lookback (highs df))) := by
      rintro ⟨ha, -⟩
      exact absurd ha
        (not_lt.mpr (le_maxD_of_mem (lastQ_mem_takeLast (highs df) lookback hlb hne_h)))
    have hB : ¬(lastQ (lows df) < minD (takeLast lookback (lows df)) ∧
        lastQ (closes df) < minD (takeLast lookback (lows df))) := by
      rintro ⟨hb, -⟩
      exact absurd hb
        (not_lt.mpr (minD_le_of_mem (lastQ_mem_takeLast (lows df) lookback hlb hne_l)))
    simp [bos_mss_confirmed, hcond, hA, hB]

/-- A 15-bar series whose last bar breaks above the preceding 10-bar high
with its close: 14 flat bars at 1 followed by `(o,h,l,c,v) = (1,3,1,2,1)`. -/
def bosExample : Series := List.replicate 14 ⟨1, 1, 1, 1, 1⟩ ++ [⟨1, 3, 1, 2, 1⟩]

/-- C2: the claim fails on the code.  This series satisfies the claim's
premise — the latest bar's high (3) and close (2) both strictly exceed the
highest high (1) of the preceding 10 bars, and the series is long enough —
yet `bos_mss_confirmed` reports no break: the source computes
`resistance = df['h'].tail(lookback).max()` over a window that contains the
latest bar itself, so `current_high > resistance` is always False. -/
theorem bos_break_missed_on_breakout :
    (lastBar bosExample).h > maxD (takeLast 10 (highs bosExample.dropLast)) ∧
    (lastBar bosExample).c > maxD (takeLast 10 (highs bosExample.dropLast)) ∧
    10 + 5 ≤ bosExample.length ∧
    bos_mss_confirmed bosExample 10 = (false, Direction.none, 0) := by
  refine ⟨by decide, by decide, by decide, by decide⟩

/-- C7 (amended to nonempty series): every detector returns its
no-detection value on a nonempty series shorter than its minimum window
(structure break 15, liquidity zones 6, liquidity grab 10, FU candle 10,
order blocks 31, imbalances 4). -/
theorem detectors_short_series_no_detection (df : Series) (tf : TF)
    (hne : 1 ≤ df.length) :
    (df.length < 15 → bos_mss_confirmed df 10 = (false, .none, 0)) ∧
    (df.length < 6 → find_liquidity_zones df tf = []) ∧
    (df.length < 10 → liquidity_grab_detected df = Option.none) ∧
    (df.length < 10 → detect_elite_fu_candle df = Option.none) ∧
    (df.length < 31 → find_elite_order_blocks df tf = []) ∧
    (df.length < 4 → find_imbalances df (1/5000) = some []) := by
  refine ⟨?_, ?_, ?_, ?_, ?_, ?_⟩
  · intro h
    have h' : df.length < 10 + 5 := by omega
    simp [bos_mss_confirmed, h']
  · intro h
    have h5 : df.length - 5 = 0 := by omega
    have h100 : ¬(100 ≤ df.length) := by omega
    simp [find_liquidity_zones, find_equal_highs, find_equal_lows,
      find_session_highs, find_session_lows, h5, h100, sortZonesDesc]
  · intro h
    simp [liquidity_grab_detected, h]
  · intro h
    simp [detect_elite_fu_candle, h]
  · intro h
    have h30 : df.length - 30 = 0 := by omega
    simp [find_elite_order_blocks, h30, sortBlocksDesc]
  · intro h
    have h3 : df.length - 3 = 0 := by omega
    rcases hlast : (closes df).getLast? with _ | c
    · exfalso
      have : closes df = [] := List.getLast?_eq_none_iff.mp hlast
      have hl : df.length = 0 := by simpa [closes] using congrArg List.length this
      omega
    · simp [find_imbalances, hlast, h3]

/-- Witness for C7 at a one-bar series. -/
theorem detectors_short_series_witness :
    bos_mss_confirmed [⟨1, 1, 1, 1, 1⟩] 10 = (false, .none, 0) ∧
    find_liquidity_zones [⟨1, 1, 1, 1, 1⟩] .H1 = [] ∧
    liquidity_grab_detected [⟨1, 1, 1, 1, 1⟩] = Option.none ∧
    detect_elite_fu_candle [⟨1, 1, 1, 1, 1⟩] = Option.none ∧
    find_elite_order_blocks [⟨1, 1, 1, 1, 1⟩] .H1 = [] ∧
    find_imbalances [⟨1, 1, 1, 1, 1⟩] (1/5000) = some [] := by
  have h := detectors_short_series_no_detection [⟨1, 1, 1, 1, 1⟩] .H1 (by simp)
  exact ⟨h.1 (by simp), h.2.1 (by simp), h.2.2.1 (by simp), h.2.2.2.1 (by simp),
    h.2.2.2.2.1 (by simp), h.2.2.2.2.2 (by simp)⟩

/-- C7 counterexample to the claim as stated: on the empty series (which is
shorter than the imbalance detector's minimum window) `find_imbalances`
does not return its no-detection value — it raises (the source reads
`df['c'].iloc[-1]` unconditionally; the raise is modelled as `none`,
whereas the no-detection value would be `some []`). -/
theorem find_imbalances_empty_raises :
    find_imbalances ([] : Series) (1/5000) = Option.none := rfl

end SMC.Detectors

namespace SMC.Correlation

open SMC

/-- Trend labels used by the correlation guard (`'BULLISH'`, `'BEARISH'`,
`'NEUTRAL'`, `'UNAVAILABLE'`). -/
inductive TrendDir where
  | BULLISH
  | BEARISH
  | NEUTRAL
  | UNAVAILABLE
deriving DecidableEq, Repr

/-- The fixed correlated-asset basket of `CorrelationGuard.__init__`. -/
inductive AssetName where
  | DXY
  | US10Y
  | SPX
  | EURUSD
  | OIL
deriving DecidableEq, Repr

def weight : AssetName → ℚ
  | .DXY => -(4/5)
  | .US10Y => -(3/5)
  | .SPX => -(2/5)
  | .EURUSD => 7/10
  | .OIL => 3/10

def correlated_assets : List AssetName := [.DXY, .US10Y, .SPX, .EURUSD, .OIL]

/-- What `mt5_client.get_rates` can do for a correlated asset: return a
frame, return `None` (`nodata`), or raise (`failure`). -/
inductive ProviderResult where
  | ok (df : Series)
  | nodata
  | failure
deriving Repr

/-- `ewm(span=s).mean().iloc[-1]` with the pandas default `adjust=True`:
the (1-α)-weighted average of the whole window, α = 2/(span+1). -/
def ewmaAdjLast (xs : List ℚ) (span : ℕ) : ℚ :=
  let α : ℚ := 2 / (span + 1)
  let p := xs.foldl (fun nd x => ((1 - α) * nd.1 + x, (1 - α) * nd.2 + 1)) ((0 : ℚ), (0 : ℚ))
  p.1 / p.2

/-- `CorrelationGuard._analyze_trend_from_data`. -/
def analyze_trend_from_data (df : Series) : TrendDir :=
  if df.length < 20 then .NEUTRAL
  else
    let ema20 := ewmaAdjLast (closes df) 20
    let ema50 := ewmaAdjLast (closes df) 50
    let prev20 := ewmaAdjLast (closes df).dropLast 20
    let prev50 := ewmaAdjLast (closes df).dropLast 50
    if ema50 < ema20 ∧ prev20 < ema20 ∧ prev50 < ema50 then .BULLISH
    else if ema20 < ema50 ∧ ema20 < prev20 ∧ ema50 < prev50 then .BEARISH
    else .NEUTRAL

/-- `CorrelationGuard._get_asset_trend`: a frame with more than 20 bars is
analysed; `None` or a short frame falls back to the RANDOM mock trend
(`mock` is the draw `random.choices` produces); an exception from the
provider yields `'UNAVAILABLE'`. -/
def get_asset_trend (data : ProviderResult) (mock : TrendDir) : TrendDir :=
  match data with
  | .ok df => if 20 < df.length then analyze_trend_from_data df else mock
  | .nodata => mock
  | .failure => .UNAVAILABLE

/-- `CorrelationGuard._check_asset_alignment` → `(is_aligned, score)`. -/
def check_asset_alignment (a : AssetName) (side : Side) (data : ProviderResult)
    (mock : TrendDir) : Bool × ℚ :=
  let asset_trend := get_asset_trend data mock
  if asset_trend = .UNAVAILABLE then (true, 1/2)
  else if side = .BUY then
    if 0 < weight a then
      (decide (asset_trend = .BULLISH), if asset_trend = .BULLISH then 1 else 0)
    else
      (decide (asset_trend = .BEARISH), if asset_trend = .BEARISH then 1 else 0)
  else
    if 0 < weight a then
      (decide (asset_trend = .BEARISH), if asset_trend = .BEARISH then 1 else 0)
    else
      (decide (asset_trend = .BULLISH), if asset_trend = .BULLISH then 1 else 0)

/-- `CorrelationGuard.check_correlation_alignment` → `(aligned, score)`.
The per-asset loop always contributes five entries, so the
`alignment_scores` list is never empty and the weighted branch is taken. -/
def check_correlation_alignment (side : Side) (data : AssetName → ProviderResult)
    (mock : AssetName → TrendDir) : Bool × ℚ :=
  let alignment_scores := correlated_assets.map (fun a =>
    let r := check_asset_alignment a side (data a) (mock a)
    if r.1 = true then r.2 * |weight a| else 0)
  let total_weight := (correlated_assets.map (fun a => |weight a|)).sum
  let weighted_score :=
    if alignment_scores ≠ [] then alignment_scores.sum / total_weight else 1/2
  (decide (3/5 ≤ weighted_score), weighted_score)

end SMC.Correlation

namespace SMC.Flow

open SMC

/-- A detected block trade (the dict of
`InstitutionalFlowDetector._analyze_candle_for_blocks`). -/
structure BlockTrade where
  idx : ℕ
  direction : Side
  volume_ratio : ℚ
  body_atr_ratio : ℚ
  strength : ℚ
  price : ℚ
deriving DecidableEq, Repr

/-- `InstitutionalFlowDetector.is_flow_aligned` → `(is_aligned, score)`;
`df_len` is `len(signal['df'])`. -/
def is_flow_aligned (side : Side) (df_len : ℕ) (blocks : List BlockTrade) : Bool × ℚ :=
  if blocks = [] then (true, 1/2)
  else
    let recent_blocks := blocks.filter (fun b => df_len - 5 ≤ b.idx)
    if recent_blocks = [] then (true, 1/2)
    else
      let aligned_blocks := recent_blocks.filter (fun b => b.direction = side)
      let total_blocks := recent_blocks.length
      let alignment_ratio : ℚ :=
        if 0 < total_blocks then aligned_blocks.length / (total_blocks : ℚ) else 0
      let aligned_strength := (aligned_blocks.map (·.strength)).sum
      let total_strength := (recent_blocks.map (·.strength)).sum
      let strength_alignment : ℚ :=
        if 0 < total_strength then aligned_strength / total_strength else 0
      let combined_score := alignment_ratio * (3/5) + strength_alignment * (2/5)
      (decide (3/5 ≤ combined_score), combined_score)

end SMC.Flow

namespace SMC.Correlation

open SMC

/-- One possible draw of the `random.choices` mock-trend fallback: every
asset's mock trend comes out opposed to a BUY gold signal (each label has
positive probability under the weights in `_get_mock_trend`). -/
def adverse_mock : AssetName → TrendDir
  | .EURUSD => .BEARISH
  | .OIL => .BEARISH
  | _ => .BULLISH

/-- C6: the claim fails on the code.  The Flow gate is indeed neutral
without block data, and a provider *exception* yields a neutral per-asset
correlation result — but a provider that returns no usable rate series
(`None`) for every asset falls back to the randomised mock trend, and an
adverse draw produces `aligned = false` with score `0 < 0.4`: a veto. -/
theorem gates_unavailable_data_veto_bug :
    Flow.is_flow_aligned .BUY 100 [] = (true, 1/2) ∧
    check_asset_alignment .DXY .BUY .failure .BULLISH = (true, 1/2) ∧
    check_correlation_alignment .BUY (fun _ => .nodata) adverse_mock = (false, 0) ∧
    ((check_correlation_alignment .BUY (fun _ => .nodata) adverse_mock).1 = false ∧
      (check_correlation_alignment .BUY (fun _ => .nodata) adverse_mock).2 < 2/5) := by
  have hc : check_correlation_alignment .BUY (fun _ => .nodata) adverse_mock = (false, 0) := by
    simp [check_correlation_alignment, correlated_assets, check_asset_alignment,
      get_asset_trend, adverse_mock, weight]
    norm_num
  refine ⟨rfl, ?_, hc, ?_⟩
  · norm_num [check_asset_alignment, get_asset_trend]
  · rw [hc]
    norm_num

end SMC.Correlation

namespace SMC.Detectors

open SMC

theorem updV_h (b : Bar) (w : ℚ) : ({ b with v := w } : Bar).h = b.h := rfl

theorem updV_l (b : Bar) (w : ℚ) : ({ b with v := w } : Bar).l = b.l := rfl

theorem updV_c (b : Bar) (w : ℚ) : ({ b with v := w } : Bar).c = b.c := rfl

theorem updV_o (b : Bar) (w : ℚ) : ({ b with v := w } : Bar).o = b.o := rfl

theorem updV_v (b : Bar) (w : ℚ) : ({ b with v := w } : Bar).v = w := rfl

theorem vols_concat (l : Series) (x : Bar) : vols (l ++ [x]) = vols l ++ [x.v] := by
  simp [vols]

theorem highs_dropLast_concat (l : Series) (x : Bar) :
    highs ((l ++ [x]).dropLast) = highs l := by
  rw [List.dropLast_concat]

theorem lows_dropLast_concat (l : Series) (x : Bar) :
    lows ((l ++ [x]).dropLast) = lows l := by
  rw [List.dropLast_concat]

theorem lastBar_concat (l : Series) (x : Bar) : lastBar (l ++ [x]) = x := by
  simp [lastBar, List.getLast?_concat]

/-- The true-range series ignores volumes: only the last bar's volume is
changed, so the TR series agrees. -/
theorem trGo_concat_v (p : Bar) (l : Series) (b : Bar) (w w' : ℚ) :
    trGo p (l ++ [{ b with v := w }]) = trGo p (l ++ [{ b with v := w' }]) := by
  induction l generalizing p with
  | nil => rfl
  | cons y t ih =>
    simp only [List.cons_append, trGo]
    exact congrArg _ (ih y)

theorem trList_concat_v (l : Series) (b : Bar) (w w' : ℚ) :
    trList (l ++ [{ b with v := w }]) = trList (l ++ [{ b with v := w' }]) := by
  cases l with
  | nil => rfl
  | cons y t =>
    simp only [List.cons_append, trList]
    exact congrArg _ (trGo_concat_v y t b w w')

theorem atrLast_concat_v (l : Series) (b : Bar) (w w' : ℚ) :
    atrLast (l ++ [{ b with v := w }]) = atrLast (l ++ [{ b with v := w' }]) := by
  unfold atrLast atrAt
  rw [trList_concat_v l b w w']
  simp

theorem sumQ_append (a : List ℚ) (y : ℚ) : sumQ (a ++ [y]) = sumQ a + y := by
  induction a with
  | nil => simp [sumQ]
  | cons x t ih =>
    simp only [List.cons_append, sumQ, List.foldr_cons] at ih ⊢
    rw [ih]
    ring

theorem sumQ_nonneg (a : List ℚ) (h : ∀ x ∈ a, 0 ≤ x) : 0 ≤ sumQ a := by
  induction a with
  | nil => simp [sumQ]
  | cons x t ih =>
    have hx := h x (List.mem_cons_self x t)
    have ht := ih (fun y hy => h y (List.mem_cons_of_mem x hy))
    simp only [sumQ, List.foldr_cons] at ht ⊢
    linarith

/-- `rolling(20).mean().iloc[-1]` of a volume column split as
`prefix ++ [last]`. -/
theorem rollingMeanLast_concat (xs : List ℚ) (y : ℚ) :
    rollingMeanLast (xs ++ [y]) 20 =
      if xs.length + 1 < 20 then none
      else some ((sumQ (takeLast 19 xs) + y) / 20) := by
  unfold rollingMeanLast rollingMeanAt
  have hlen : (xs ++ [y]).length = xs.length + 1 := by simp
  rw [hlen]
  have h1 : xs.length + 1 - 1 = xs.length := by omega
  rw [h1]
  by_cases hc : xs.length + 1 < 20
  · rw [if_pos hc, if_pos hc]
  · rw [if_neg hc, if_neg hc]
    congr 1
    have htake : (xs ++ [y]).take (xs.length + 1) = xs ++ [y] := by
      apply List.take_of_length_le
      simp
    rw [htake]
    have hdrop : (xs ++ [y]).drop (xs.length + 1 - 20) =
        xs.drop (xs.length + 1 - 20) ++ [y] := by
      apply List.drop_append_of_le_length
      omega
    rw [hdrop, sumQ_append]
    have : xs.length + 1 - 20 = xs.length - 19 := by omega
    rw [this]
    rfl

theorem vols_length (l : Series) : (vols l).length = l.length := by simp [vols]

/-- Monotonicity of the guarded `v / avg` volume-ratio expression in the
last bar's volume, given a nonnegative prefix sum. -/
theorem fu_ratio_mono (S v v' : ℚ) (hS : 0 ≤ S) (hv : 0 ≤ v) (hvv : v ≤ v') :
    (if 0 < (S + v) / 20 then v / ((S + v) / 20) else 1) ≤
      (if 0 < (S + v') / 20 then v' / ((S + v') / 20) else 1) := by
  by_cases h1 : 0 < (S + v) / 20
  · have hsv : 0 < S + v := by
      have hm := mul_pos h1 (show (0:ℚ) < 20 by norm_num)
      rwa [div_mul_cancel₀ _ (by norm_num : (20:ℚ) ≠ 0)] at hm
    have hsv' : 0 < S + v' := by linarith
    have h2 : 0 < (S + v') / 20 := div_pos hsv' (by norm_num)
    rw [if_pos h1, if_pos h2, div_div_eq_mul_div, div_div_eq_mul_div,
      div_le_div_iff₀ hsv hsv']
    have hmul : v * S ≤ v' * S := mul_le_mul_of_nonneg_right hvv hS
    nlinarith
  · rw [if_neg h1]
    have hsv : S + v ≤ 0 := by
      by_contra hc
      push_neg at hc
      exact h1 (div_pos hc (by norm_num))
    have hv0 : v = 0 := le_antisymm (by linarith) hv
    have hS0 : S = 0 := le_antisymm (by linarith) hS
    by_cases h2 : 0 < (S + v') / 20
    · rw [if_pos h2]
      have hv' : 0 < v' := by
        have hm := mul_pos h2 (show (0:ℚ) < 20 by norm_num)
        rw [div_mul_cancel₀ _ (by norm_num : (20:ℚ) ≠ 0)] at hm
        linarith
      rw [hS0, zero_add, div_div_eq_mul_div, mul_comm, mul_div_assoc,
        div_self (ne_of_gt hv'), mul_one]
      norm_num
    · rw [if_neg h2]

/-- Monotonicity of the detector's guarded volume ratio in the last bar's
volume. -/
theorem fu_volume_ratio_le (pre : Series) (v v' : ℚ)
    (hvols : ∀ x ∈ pre, 0 ≤ x.v) (hv : 0 ≤ v) (hvv : v ≤ v') :
    (match rollingMeanLast (vols pre ++ [v]) 20 with
     | some a => if 0 < a then v / a else 1
     | Option.none => 1) ≤
    (match rollingMeanLast (vols pre ++ [v']) 20 with
     | some a => if 0 < a then v' / a else 1
     | Option.none => 1) := by
  rw [rollingMeanLast_concat, rollingMeanLast_concat]
  by_cases h20 : (vols pre).length + 1 < 20
  · simp [h20]
  · rw [if_neg h20, if_neg h20]
    have hS : 0 ≤ sumQ (takeLast 19 (vols pre)) := by
      apply sumQ_nonneg
      intro x hx
      unfold takeLast at hx
      have hx' : x ∈ vols pre := List.mem_of_mem_drop hx
      obtain ⟨bar, hbar, rfl⟩ := List.mem_map.mp hx'
      exact hvols bar hbar
    exact fu_ratio_mono _ v v' hS hv hvv

/-- Monotonicity of `min(0.3, min(3.0, ratio) * 0.1)`. -/
theorem fu_volume_strength_mono (r r' : ℚ) (h : r ≤ r') :
    min (3/10) (min 3 r * (1/10)) ≤ min (3/10) (min 3 r' * (1/10)) := by
  have h1 : min 3 r ≤ min 3 r' := min_le_min (le_refl 3) h
  exact min_le_min (le_refl _) (by linarith)

/-- Python `min(c, x)` with a non-NaN first argument is never NaN. -/
theorem pymin_some_left_exists (c : ℚ) (x : F) : ∃ q : ℚ, pymin (some c) x = some q := by
  cases x with
  | none => exact ⟨c, by simp [pymin, flt]⟩
  | some a =>
    by_cases h : a < c
    · exact ⟨a, by simp [pymin, flt, h]⟩
    · exact ⟨c, by simp [pymin, flt, h]⟩

/-- `_calculate_fu_strength` on a series ending in bar `x`, in closed form. -/
theorem calculate_fu_strength_concat (l : Series) (x : Bar) (dir : Direction)
    (body : ℚ) (atr : F) (ratio : ℚ) :
    calculate_fu_strength (l ++ [x]) dir body atr ratio =
      fadd (fadd (pymin (some (2/5)) (fmul (fdiv (some body) atr) (some (2/5))))
          (some (min (3/10) (min 3 ratio * (1/10)))))
        (pymin (some (3/10))
          (fmul (if dir = Direction.bullish then fdiv (some (x.c - x.l)) (some (x.h - x.l))
                 else fdiv (some (x.h - x.c)) (some (x.h - x.l))) (some (3/10)))) := by
  simp only [calculate_fu_strength, lastBar_concat]

/-- Strength comparison shared by the bullish and bearish emission
branches: with identical price path and a larger (or equal) volume ratio,
the computed FU strength is a real number and does not decrease. -/
theorem calc_strength_mono (pre : Series) (b : Bar) (v v' : ℚ) (dir : Direction)
    (body : ℚ) (atr : F) (r r' : ℚ) (hr : r ≤ r') :
    ∃ s s' : ℚ,
      calculate_fu_strength (pre ++ [{ b with v := v }]) dir body atr r = some s ∧
      calculate_fu_strength (pre ++ [{ b with v := v' }]) dir body atr r' = some s' ∧
      s ≤ s' := by
  rw [calculate_fu_strength_concat, calculate_fu_strength_concat]
  simp only [updV_h, updV_l, updV_c]
  obtain ⟨β, hβ⟩ := pymin_some_left_exists (2/5)
    (fmul (fdiv (some body) atr) (some (2/5)))
  obtain ⟨ρ, hρ⟩ := pymin_some_left_exists (3/10)
    (fmul (if dir = Direction.bullish then fdiv (some (b.c - b.l)) (some (b.h - b.l))
           else fdiv (some (b.h - b.c)) (some (b.h - b.l))) (some (3/10)))
  refine ⟨β + min (3/10) (min 3 r * (1/10)) + ρ,
    β + min (3/10) (min 3 r' * (1/10)) + ρ, ?_, ?_, ?_⟩
  · rw [hβ, hρ]
    simp [fadd]
  · rw [hβ, hρ]
    simp [fadd]
  · have := fu_volume_strength_mono r r' hr
    linarith

/-- C8: holding the OHLC price path fixed, if the FU detector emits a
candle, then raising the last bar's volume still emits one, and the
computed strength does not decrease.  (Volumes are nonnegative, as for
real market data.) -/
theorem fu_strength_volume_monotone (pre : Series) (b : Bar) (v v' : ℚ)
    (hvols : ∀ x ∈ pre, 0 ≤ x.v) (hv : 0 ≤ v) (hvv' : v ≤ v') (fu : FUCandle)
    (hdet : detect_elite_fu_candle (pre ++ [{ b with v := v }]) = some fu) :
    ∃ fu' : FUCandle,
      detect_elite_fu_candle (pre ++ [{ b with v := v' }]) = some fu' ∧
      ∃ s s' : ℚ, fu.strength = some s ∧ fu'.strength = some s' ∧ s ≤ s' := by
  by_cases hsmall : (pre ++ [({ b with v := v } : Bar)]).length < 10
  · unfold detect_elite_fu_candle at hdet
    rw [if_pos hsmall] at hdet
    exact absurd hdet (by simp)
  · have hsmall' : ¬(pre ++ [({ b with v := v' } : Bar)]).length < 10 := by
      simp only [List.length_append, List.length_singleton] at hsmall ⊢
      exact hsmall
    unfold detect_elite_fu_candle at hdet ⊢
    rw [if_neg hsmall] at hdet
    rw [if_neg hsmall']
    simp only [lastBar_concat, List.dropLast_concat, updV_h, updV_l, updV_c, updV_o,
      updV_v, vols_concat, List.length_append, List.length_singleton,
      Nat.add_sub_cancel] at hdet ⊢
    rw [atrLast_concat_v pre b v' v]
    by_cases h0 : flt (some |b.c - b.o|)
        (fmul (some fu_body_atr) (atrLast (pre ++ [({ b with v := v } : Bar)]))) = true
    · rw [if_pos h0] at hdet
      exact absurd hdet (by simp)
    · rw [if_neg h0] at hdet
      rw [if_neg h0]
      by_cases h1 : b.l < minD (takeLast 9 (lows pre)) ∧
          fu_close_frac ≤ (if 0 < b.h - b.l then (b.c - b.l) / (b.h - b.l) else 1/2)
      · rw [if_pos h1] at hdet
        rw [if_pos h1]
        obtain rfl := Option.some.inj hdet
        refine ⟨_, rfl, ?_⟩
        obtain ⟨s, s', hs, hs', hss⟩ := calc_strength_mono pre b v v' .bullish
          |b.c - b.o| (atrLast (pre ++ [({ b with v := v } : Bar)])) _ _
          (fu_volume_ratio_le pre v v' hvols hv hvv')
        exact ⟨s, s', hs, hs', hss⟩
      · rw [if_neg h1] at hdet
        rw [if_neg h1]
        by_cases h2 : maxD (takeLast 9 (highs pre)) < b.h ∧
            (if 0 < b.h - b.l then (b.c - b.l) / (b.h - b.l) else 1/2) ≤ 1 - fu_close_frac
        · rw [if_pos h2] at hdet
          rw [if_pos h2]
          obtain rfl := Option.some.inj hdet
          refine ⟨_, rfl, ?_⟩
          obtain ⟨s, s', hs, hs', hss⟩ := calc_strength_mono pre b v v' .bearish
            |b.c - b.o| (atrLast (pre ++ [({ b with v := v } : Bar)])) _ _
            (fu_volume_ratio_le pre v v' hvols hv hvv')
          exact ⟨s, s', hs, hs', hss⟩
        · rw [if_neg h2] at hdet
          exact absurd hdet (by simp)

/-- Nine context bars for the C8 witness series. -/
def fuPre : Series := List.replicate 9 ⟨1, 2, 1, 2, 1⟩

/-- The witness FU bar: sweeps the context low (0 < 1) and closes high in
its range (close fraction 0.8 ≥ 0.6). -/
def fuBar : Bar := ⟨0, 1, 0, 4/5, 1⟩

/-- The candle the detector emits on `fuPre ++ [fuBar]` (ATR is still NaN
at 10 bars, so the body term contributes its 0.4 cap). -/
def fuWitnessCandle : FUCandle :=
  ⟨9, .bullish, 4/5, 1, 4/5, 1, some (37/50)⟩

theorem fu_witness_hdet :
    detect_elite_fu_candle (fuPre ++ [{ fuBar with v := 1 }]) = some fuWitnessCandle := by
  unfold detect_elite_fu_candle
  norm_num [fuPre, fuBar, fuWitnessCandle, lastBar, List.getLast?_concat,
    List.dropLast_concat, atrLast, atrAt, rollingMeanAt, rollingMeanLast, vols, lows,
    highs, closes, opens, minD, maxD, takeLast, getQ, lastQ, trList, trGo,
    calculate_fu_strength, fu_body_atr, fu_close_frac, fadd, fmul, fdiv, flt, pymin,
    sumQ, List.replicate]

/-- Witness for C8: raising the witness bar's volume from 1 to 2 still
emits a candle whose strength is at least the original 0.74. -/
theorem fu_strength_volume_monotone_witness :
    (∀ x ∈ fuPre, 0 ≤ x.v) ∧
    ∃ fu' : FUCandle,
      detect_elite_fu_candle (fuPre ++ [{ fuBar with v := 2 }]) = some fu' ∧
      ∃ s s' : ℚ, fuWitnessCandle.strength = some s ∧ fu'.strength = some s' ∧ s ≤ s' := by
  have hvols : ∀ x ∈ fuPre, 0 ≤ x.v := by
    intro x hx
    simp [fuPre, List.eq_of_mem_replicate hx]
  exact ⟨hvols,
    fu_strength_volume_monotone fuPre fuBar 1 2 hvols (by norm_num) (by norm_num)
      fuWitnessCandle fu_witness_hdet⟩

end SMC.Detectors
